import Mathlib

/-!
# Verification of the comment-pagination engine

Shallow embedding of the core scraping logic of the tiktok-comment-scrapper
repository (`src/scraper/tiktok-comment.ts`, `src/scraper/instagram-comment.ts`,
`src/types/comment.ts`, `src/types/comments.ts`), together with theorems
settling the specification's claims about pagination termination, duplicate
suppression, reply resolution, retry backoff, auth-wall handling and
timestamp normalization.

Network endpoints are modelled as functions from (call index, request cursor)
to an optional response; `none` models `fetchWithRetry` returning `null`
after exhausting retries.  The `while` loops are modelled with explicit fuel;
a `finished = false` result means the loop was still running when the fuel
ran out (the real loop would keep iterating), so termination claims are
stated as `finished = true` for every fuel budget.
-/

namespace Scraper

/-- `new Date(sec * 1000).toISOString().slice(0, 19)`:
UTC civil time computed per the ECMAScript Date specification
(proleptic Gregorian, leap-year rule 4/100/400).  Modelled for
non-negative epoch seconds with a four-digit year. -/
def isLeap (y : Nat) : Bool := (y % 4 == 0 && y % 100 != 0) || y % 400 == 0

/-- Number of days in year `y`. -/
def daysInYear (y : Nat) : Nat := if isLeap y then 366 else 365

/-- Month lengths for year `y`, January first. -/
def monthLengths (y : Nat) : List Nat :=
  [31, if isLeap y then 29 else 28, 31, 30, 31, 30, 31, 31, 30, 31, 30, 31]

/-- Walk forward from year `y`, consuming whole years from the day count `d`
(ECMAScript `YearFromTime`).  The fuel is sufficient whenever `d < fuel`. -/
def yearFromDayAux : Nat → Nat → Nat → Nat × Nat
  | 0, y, d => (y, d)
  | fuel + 1, y, d =>
    if d < daysInYear y then (y, d) else yearFromDayAux fuel (y + 1) (d - daysInYear y)

/-- Year and day-within-year of a day count since 1970-01-01. -/
def yearFromDay (day : Nat) : Nat × Nat := yearFromDayAux (day + 1) 1970 day

/-- Walk the month-length table (`MonthFromTime`): returns the 1-based month
and the 0-based day within the month. -/
def monthFromDayAux : List Nat → Nat → Nat → Nat × Nat
  | [], m, d => (m, d)
  | len :: rest, m, d =>
    if d < len then (m, d) else monthFromDayAux rest (m + 1) (d - len)

/-- Decimal digit character (`0x30 + n % 10`). -/
def dchar (n : Nat) : Char := Char.ofNat (48 + n % 10)

/-- The nineteen characters `YYYY-MM-DDTHH:mm:ss`. -/
def isoChars (y mo d h mi s : Nat) : List Char :=
  [dchar (y / 1000), dchar (y / 100), dchar (y / 10), dchar y, '-',
   dchar (mo / 10), dchar mo, '-', dchar (d / 10), dchar d, 'T',
   dchar (h / 10), dchar h, ':', dchar (mi / 10), dchar mi, ':',
   dchar (s / 10), dchar s]

/-- `new Date(sec * 1000).toISOString().slice(0, 19)` for a non-negative
whole-second epoch (`create_time * 1000` is always a whole number of
seconds, so the sliced-off `.sssZ` suffix is `.000Z`). -/
def epochToISO (sec : Nat) : String :=
  let day := sec / 86400
  let rem := sec % 86400
  let yd := yearFromDay day
  let md := monthFromDayAux (monthLengths yd.1) 1 yd.2
  String.mk (isoChars yd.1 md.1 (md.2 + 1) (rem / 3600) (rem / 60 % 60) (rem % 60))

/-- The `Comment` value model (`src/types/comment.ts`). -/
structure Comment where
  comment_id : String
  username : String
  nickname : String
  comment : String
  create_time : String
  avatar : String
  total_reply : Int
  replies : List Comment
  parent_comment_id : Option String
  is_orphan_reply : Bool

/-- The `Comment` constructor: stores all fields verbatim except
`create_time`, which is normalized from epoch seconds via
`new Date(create_time * 1000).toISOString().slice(0, 19)`. -/
def Comment.make (comment_id username nickname comment : String)
    (create_time : Nat) (avatar : String) (total_reply : Int)
    (replies : List Comment) (parent_comment_id : Option String)
    (is_orphan_reply : Bool) : Comment :=
  { comment_id, username, nickname, comment,
    create_time := epochToISO create_time, avatar, total_reply, replies,
    parent_comment_id, is_orphan_reply }

/-- The `Comments` aggregate (`src/types/comments.ts`). -/
structure Comments where
  caption : String
  video_url : String
  comments : List Comment
  has_more : Int
  needs_auth : Bool
  auth_message : String

/-- `RawCommentData` as read from the comment/reply list endpoints. -/
structure RawCommentData where
  cid : String
  unique_id : String
  nickname : String
  avatar_url_list : List String
  text : String
  create_time : Nat
  reply_comment_total : Int
  reply_id : Option String
  deriving Repr, DecidableEq

/-- `share_info` embedded in top-level comment records; `title`/`url`
are optional because the code reads them with `?? ""`. -/
structure ShareInfo where
  title : Option String
  url : Option String
  deriving Repr, DecidableEq

/-- A record of the top-level comments endpoint:
`RawCommentData & { share_info }` (accessed defensively with `?.`). -/
structure TopCommentData where
  base : RawCommentData
  share_info : Option ShareInfo
  deriving Repr, DecidableEq

/-- Response of the replies-list endpoint (`ReplyListResponse`). -/
structure ReplyListResponse where
  comments : Option (List RawCommentData)
  has_more : Int
  cursor : Int
  status_code : Option Int
  deriving Repr, DecidableEq

/-- Response of the top-level comments-list endpoint (`CommentListResponse`). -/
structure CommentListResponse where
  comments : Option (List TopCommentData)
  has_more : Int
  cursor : Int
  status_code : Option Int
  deriving Repr, DecidableEq

/-- `json.status_code && json.status_code !== 0` (JavaScript truthiness:
an absent or zero status code is falsy). -/
def statusBad : Option Int → Bool
  | none => false
  | some s => s != 0

/-- `data.reply_id && data.reply_id !== "0" ? data.reply_id : undefined`
(an absent, empty or `"0"` marker is dropped). -/
def replyMarker (data : RawCommentData) : Option String :=
  match data.reply_id with
  | none => none
  | some r => if r = "0" ∨ r = "" then none else some r

/-- `TiktokComment.parseComment`: builds a `Comment` from a raw record.
`parent_comment_id` is
`parentCommentId || (data.reply_id && data.reply_id !== "0" ? data.reply_id : undefined)`
— an absent or empty (falsy) `parentCommentId` falls back to the record's
own reply marker. -/
def parseComment (data : RawCommentData) (replies : List Comment)
    (parentCommentId : Option String) : Comment :=
  Comment.make data.cid data.unique_id data.nickname data.text data.create_time
    (data.avatar_url_list.headD "") data.reply_comment_total replies
    (match parentCommentId with
     | some p => if p = "" then replyMarker data else some p
     | none => replyMarker data)
    false

/-- `RETRY_CONFIG.maxRetries`. -/
def RETRY_CONFIG.maxRetries : Nat := 3

/-- `RETRY_CONFIG.baseDelay` (milliseconds). -/
def RETRY_CONFIG.baseDelay : Nat := 1000

/-- `RETRY_CONFIG.maxDelay` (milliseconds). -/
def RETRY_CONFIG.maxDelay : Nat := 4000

/-- `Math.min(RETRY_CONFIG.baseDelay * 2 ** retryCount, RETRY_CONFIG.maxDelay)`. -/
def backoffDelay (retryCount : Nat) : Nat :=
  min (RETRY_CONFIG.baseDelay * 2 ^ retryCount) RETRY_CONFIG.maxDelay

/-- `TiktokComment.fetchWithRetry` (after a successfully initialized page).
The browser-side fetch is modelled as an oracle from attempt number to
`Option T` (`none` = the attempt threw).  Returns the final result
(`none` models returning `null` after exhausting retries) together with the
list of backoff delays slept before each retry, in order. -/
def fetchWithRetry {T : Type} (oracle : Nat → Option T) (retryCount : Nat) :
    Option T × List Nat :=
  match oracle retryCount with
  | some v => (some v, [])
  | none =>
    if retryCount < RETRY_CONFIG.maxRetries then
      let r := fetchWithRetry oracle (retryCount + 1)
      (r.1, backoffDelay retryCount :: r.2)
    else
      (none, [])
termination_by RETRY_CONFIG.maxRetries - retryCount
decreasing_by simp [RETRY_CONFIG.maxRetries] at *; omega

/-- A replies-list endpoint keyed by comment id: given the comment id, the
index of the request within one `getAllReplies` run, and the request
cursor, yields the response (`none` = `fetchWithRetry` returned `null`). -/
def ReplyEndpoint := String → Nat → Int → Option ReplyListResponse

/-- A top-level comments-list endpoint: given the request index within one
walk and the request cursor, yields the response. -/
def TopEndpoint := Nat → Int → Option CommentListResponse

/-- Result of one `getAllReplies` run: the accumulated replies, the number
of endpoint requests issued, and whether the `while` loop exited through
one of its own stop conditions (`false` = the fuel ran out with the loop
still running). -/
structure RepliesResult where
  replies : List Comment
  calls : Nat
  finished : Bool

/-- The body of `getAllReplies`'s `while (hasMore)` loop.  Each iteration
fetches a page at `cursor`; stops on a null payload, a bad status code, a
missing or empty list; otherwise appends the parsed replies (each tagged
with `parentCommentId`), sets `hasMore = json.has_more === 1` and
`cursor = json.cursor`, and then checks the safety guard
`if (hasMore && json.cursor <= cursor - size) break` — note that `cursor`
has already been overwritten with `json.cursor` at this point, exactly as
in the source. -/
def getAllRepliesAux (ep : Nat → Int → Option ReplyListResponse)
    (parentCommentId : String) :
    Nat → Nat → Int → List Comment → RepliesResult
  | 0, _, _, acc => ⟨acc, 0, false⟩
  | fuel + 1, callIdx, cursor, acc =>
    match ep callIdx cursor with
    | none => ⟨acc, 1, true⟩
    | some json =>
      if statusBad json.status_code then ⟨acc, 1, true⟩
      else
        match json.comments with
        | none => ⟨acc, 1, true⟩
        | some page =>
          if page.isEmpty then ⟨acc, 1, true⟩
          else
            let acc' := acc ++ page.map (fun r => parseComment r [] (some parentCommentId))
            if json.has_more = 1 ∧ json.cursor ≤ json.cursor - 50 then
              ⟨acc', 1, true⟩
            else if json.has_more = 1 then
              let rest := getAllRepliesAux ep parentCommentId fuel (callIdx + 1) json.cursor acc'
              ⟨rest.replies, rest.calls + 1, rest.finished⟩
            else ⟨acc', 1, true⟩

/-- `TiktokComment.getAllReplies(commentId, parentCommentId)`: paginate the
replies-list endpoint for `commentId` starting at cursor 0, tagging every
parsed reply with `parentCommentId`. -/
def getAllReplies (repEp : ReplyEndpoint) (commentId parentCommentId : String)
    (fuel : Nat) : RepliesResult :=
  getAllRepliesAux (repEp commentId) parentCommentId fuel 0 0 []

/-- The pages of reply records actually consumed (parsed and appended) by a
`getAllReplies` run, mirroring the loop's stop conditions. -/
def consumedReplyPages (ep : Nat → Int → Option ReplyListResponse) :
    Nat → Nat → Int → List (List RawCommentData)
  | 0, _, _ => []
  | fuel + 1, callIdx, cursor =>
    match ep callIdx cursor with
    | none => []
    | some json =>
      if statusBad json.status_code then []
      else
        match json.comments with
        | none => []
        | some page =>
          if page.isEmpty then []
          else if json.has_more = 1 ∧ json.cursor ≤ json.cursor - 50 then [page]
          else if json.has_more = 1 then
            page :: consumedReplyPages ep fuel (callIdx + 1) json.cursor
          else [page]

/-- The replies a top-level record `d` gets in `getAllComments`:
`getAllReplies(d.cid, d.cid)` when `reply_comment_total > 0`, else `[]`. -/
def resolvedReplies (repEp : ReplyEndpoint) (replyFuel : Nat)
    (d : RawCommentData) : List Comment :=
  if 0 < d.reply_comment_total then
    (getAllReplies repEp d.cid d.cid replyFuel).replies
  else []

/-- The `Comment` pushed onto `allComments` for a top-level record:
`parseComment(commentData, replies)` with no explicit parent id. -/
def buildTopComment (repEp : ReplyEndpoint) (replyFuel : Nat)
    (d : TopCommentData) : Comment :=
  parseComment d.base (resolvedReplies repEp replyFuel d.base) none

/-- The `for (const commentData of json.comments)` body of
`getAllComments`: skip records whose `cid` is already in `seenCommentIds`,
otherwise record the id, resolve replies when `reply_comment_total > 0`,
and push the parsed comment. -/
def processPage (repEp : ReplyEndpoint) (replyFuel : Nat) :
    List String → List Comment → List TopCommentData → List String × List Comment
  | seen, acc, [] => (seen, acc)
  | seen, acc, d :: rest =>
    if d.base.cid ∈ seen then processPage repEp replyFuel seen acc rest
    else
      processPage repEp replyFuel (d.base.cid :: seen)
        (acc ++ [buildTopComment repEp replyFuel d]) rest

/-- `caption`/`video_url` capture: on each page,
`if (!caption && json.comments[0]?.share_info)` read
`share_info.title ?? ""` and `share_info.url ?? ""`. -/
def updateCaption (caption videoUrl : String) (page : List TopCommentData) :
    String × String :=
  if caption = "" then
    match page.head? with
    | some d =>
      match d.share_info with
      | some si => (si.title.getD "", si.url.getD "")
      | none => (caption, videoUrl)
    | none => (caption, videoUrl)
  else (caption, videoUrl)

/-- State returned by the top-level walk loop. -/
structure WalkState where
  comments : List Comment
  caption : String
  video_url : String
  calls : Nat
  finished : Bool

/-- The `while (hasMore)` loop of `TiktokComment.getAllComments`.  Each
iteration fetches a page at `cursor`; stops on a null payload, bad status
code, missing or empty list; otherwise captures caption metadata, runs the
per-record loop with the dedup set, computes
`hasMore = json.has_more === 1`, `newCursor = json.cursor`, and breaks if
`hasMore && newCursor <= cursor` (here `cursor` is still the cursor used
for this request), else sets `cursor = newCursor` and continues. -/
def getAllCommentsAux (topEp : TopEndpoint) (repEp : ReplyEndpoint)
    (replyFuel : Nat) :
    Nat → Nat → Int → List String → List Comment → String → String → WalkState
  | 0, _, _, _, acc, caption, videoUrl => ⟨acc, caption, videoUrl, 0, false⟩
  | fuel + 1, callIdx, cursor, seen, acc, caption, videoUrl =>
    match topEp callIdx cursor with
    | none => ⟨acc, caption, videoUrl, 1, true⟩
    | some json =>
      if statusBad json.status_code then ⟨acc, caption, videoUrl, 1, true⟩
      else
        match json.comments with
        | none => ⟨acc, caption, videoUrl, 1, true⟩
        | some page =>
          if page.isEmpty then ⟨acc, caption, videoUrl, 1, true⟩
          else
            let cv := updateCaption caption videoUrl page
            let sa := processPage repEp replyFuel seen acc page
            if json.has_more = 1 ∧ json.cursor ≤ cursor then
              ⟨sa.2, cv.1, cv.2, 1, true⟩
            else if json.has_more = 1 then
              let rest := getAllCommentsAux topEp repEp replyFuel fuel
                (callIdx + 1) json.cursor sa.1 sa.2 cv.1 cv.2
              ⟨rest.comments, rest.caption, rest.video_url, rest.calls + 1, rest.finished⟩
            else ⟨sa.2, cv.1, cv.2, 1, true⟩

/-- Result of `TiktokComment.getAllComments`: the assembled `Comments`
(always `has_more = 0`) plus the request count and loop-exit flag. -/
structure WalkResult where
  result : Comments
  calls : Nat
  finished : Bool

/-- `TiktokComment.getAllComments(id)`: walk the top-level endpoint from
cursor 0 with an empty dedup set and return
`new Comments(caption, videoUrl, allComments, 0)`. -/
def getAllComments (topEp : TopEndpoint) (repEp : ReplyEndpoint)
    (replyFuel fuel : Nat) : WalkResult :=
  let w := getAllCommentsAux topEp repEp replyFuel fuel 0 0 [] [] "" ""
  ⟨⟨w.caption, w.video_url, w.comments, 0, false, ""⟩, w.calls, w.finished⟩

/-- The pages of top-level records actually processed by a walk, mirroring
the loop's stop conditions (independent of the dedup set, which never
affects which pages are fetched). -/
def consumedTopPages (topEp : TopEndpoint) :
    Nat → Nat → Int → List (List TopCommentData)
  | 0, _, _ => []
  | fuel + 1, callIdx, cursor =>
    match topEp callIdx cursor with
    | none => []
    | some json =>
      if statusBad json.status_code then []
      else
        match json.comments with
        | none => []
        | some page =>
          if page.isEmpty then []
          else if json.has_more = 1 ∧ json.cursor ≤ cursor then [page]
          else if json.has_more = 1 then
            page :: consumedTopPages topEp fuel (callIdx + 1) json.cursor
          else [page]

/-- The dedup filter applied to a stream of records given an initial seen
set: keeps the first occurrence of each `cid` not already seen. -/
def dedupFilter (seen : List String) : List TopCommentData → List TopCommentData
  | [] => []
  | d :: rest =>
    if d.base.cid ∈ seen then dedupFilter seen rest
    else d :: dedupFilter (d.base.cid :: seen) rest

/-- The seen set after processing a stream of records. -/
def seenAfter (seen : List String) : List TopCommentData → List String
  | [] => seen
  | d :: rest =>
    if d.base.cid ∈ seen then seenAfter seen rest
    else seenAfter (d.base.cid :: seen) rest

/-- `InstagramComment.scrape` after a successful navigation, modelled on
its three return paths: the login-wall short-circuit (wall marker present
and no saved session), the zero-comments-without-session fallback, and the
normal result.  `loginWall` is the presence of the structural marker,
`parsed` the comments extracted from the DOM, `caption` the extracted
caption (`""` when extraction failed; `caption || "Instagram Post"`). -/
def instagramScrape (loginWall hasSession : Bool) (parsed : List Comment)
    (caption url : String) : Comments :=
  if loginWall ∧ ¬hasSession then
    ⟨"Instagram Post", url, [], 0, true,
      "Instagram requires authentication to view comments. Please log in using /api/session/login?platform=instagram"⟩
  else if parsed.length = 0 ∧ ¬hasSession then
    ⟨(if caption = "" then "Instagram Post" else caption), url, [], 0, true,
      "No comments found. Instagram may require authentication. Try logging in via /api/session/login?platform=instagram"⟩
  else
    ⟨(if caption = "" then "Instagram Post" else caption), url, parsed, 0, false, ""⟩

/-! ### Concrete endpoints used as test inputs -/

/-- A replies endpoint whose fetch always fails. -/
def emptyReplyEndpoint : ReplyEndpoint := fun _ _ _ => none

/-- A sample raw reply record. -/
def sampleReply (cid : String) (rid : Option String) : RawCommentData :=
  ⟨cid, "user", "nick", ["avatar"], "text", 1700000000, 0, rid⟩

/-- A sample top-level record with a given reply count and reply marker. -/
def sampleTop (cid : String) (rid : Option String) (total : Int) : TopCommentData :=
  ⟨⟨cid, "user", "nick", ["avatar"], "text", 1700000000, total, rid⟩, none⟩

/-- A replies endpoint whose cursors ping-pong between 0 and 50 with
`has_more: 1` forever: the response fetched at cursor 50 returns cursor 0,
which does not advance (`0 <= 50 - size`). -/
def stuckReplyEndpoint : ReplyEndpoint := fun _ _ c =>
  if c = 0 then some ⟨some [sampleReply "r1" none], 1, 50, none⟩
  else some ⟨some [sampleReply "r2" none], 1, 0, none⟩

/-- A top-level endpoint that always reports `has_more: 1` and echoes the
request cursor back. -/
def echoTopEndpoint : TopEndpoint := fun _ c =>
  some ⟨some [sampleTop "c1" none 0], 1, c, none⟩

/-- A top-level record carrying a non-zero reply-of marker `"p0"`. -/
def inlineReplyRecord : TopCommentData := sampleTop "c1" (some "p0") 0

/-- A single-page top-level endpoint returning only `inlineReplyRecord`. -/
def inlineReplyTopEndpoint : TopEndpoint := fun i _ =>
  if i = 0 then some ⟨some [inlineReplyRecord], 0, 0, none⟩ else none

/-- A two-page top-level endpoint returning comment id `"a"` on both pages. -/
def dupTopEndpoint : TopEndpoint := fun i _ =>
  if i = 0 then some ⟨some [sampleTop "a" none 0, sampleTop "b" none 0], 1, 50, none⟩
  else if i = 1 then some ⟨some [sampleTop "a" none 0, sampleTop "c" none 0], 0, 100, none⟩
  else none

/-- A replies endpoint returning two reply records in a single page. -/
def overReplyEndpoint : ReplyEndpoint := fun _ _ _ =>
  some ⟨some [sampleReply "x1" none, sampleReply "x2" none], 0, 0, none⟩

/-- A single-page top-level endpoint with one comment reporting
`reply_comment_total = 1`. -/
def singleTopEndpoint : TopEndpoint := fun i _ =>
  if i = 0 then some ⟨some [sampleTop "c1" none 1], 0, 0, none⟩ else none

/-- A single-page top-level endpoint whose only comment has the empty
string as its `cid` and reports one reply. -/
def emptyCidTopEndpoint : TopEndpoint := fun i _ =>
  if i = 0 then some ⟨some [sampleTop "" none 1], 0, 0, none⟩ else none

/-- A replies endpoint returning one reply that carries its own
`reply_id = "999"` marker. -/
def markedReplyEndpoint : ReplyEndpoint := fun _ _ _ =>
  some ⟨some [sampleReply "r9" (some "999")], 0, 0, none⟩

/-- A replies endpoint returning the same reply id `"r1"` on two pages. -/
def dupReplyEndpoint : ReplyEndpoint := fun _ i _ =>
  if i = 0 then some ⟨some [sampleReply "r1" none], 1, 50, none⟩
  else if i = 1 then some ⟨some [sampleReply "r1" none], 0, 100, none⟩
  else none

/-- A well-behaved replies endpoint returning a single one-record page. -/
def plainReplyEndpoint : ReplyEndpoint := fun _ i _ =>
  if i = 0 then some ⟨some [sampleReply "r1" none], 0, 0, none⟩ else none

/-! ### Basic facts about `parseComment` -/

theorem parseComment_comment_id (d : RawCommentData) (rs : List Comment)
    (p : Option String) : (parseComment d rs p).comment_id = d.cid := rfl

theorem parseComment_replies (d : RawCommentData) (rs : List Comment)
    (p : Option String) : (parseComment d rs p).replies = rs := rfl

theorem parseComment_total_reply (d : RawCommentData) (rs : List Comment)
    (p : Option String) : (parseComment d rs p).total_reply = d.reply_comment_total := rfl

theorem parseComment_parent_none (d : RawCommentData) (rs : List Comment) :
    (parseComment d rs none).parent_comment_id = replyMarker d := rfl

theorem parseComment_parent_some (d : RawCommentData) (rs : List Comment)
    {p : String} (hp : p ≠ "") :
    (parseComment d rs (some p)).parent_comment_id = some p := by
  simp [parseComment, Comment.make, hp]

/-! ### The reply resolver appends exactly the consumed records, in order -/

theorem getAllRepliesAux_replies (ep : Nat → Int → Option ReplyListResponse)
    (p : String) : ∀ (fuel callIdx : Nat) (cursor : Int) (acc : List Comment),
    (getAllRepliesAux ep p fuel callIdx cursor acc).replies
      = acc ++ (consumedReplyPages ep fuel callIdx cursor).flatten.map
          (fun r => parseComment r [] (some p)) := by
  intro fuel
  induction fuel with
  | zero => intro i c acc; simp [getAllRepliesAux, consumedReplyPages]
  | succ n ih =>
    intro i c acc
    simp only [getAllRepliesAux, consumedReplyPages]
    cases hep : ep i c with
    | none => simp
    | some json =>
      by_cases hsc : statusBad json.status_code
      · simp [hsc]
      · simp only [hsc, if_false, Bool.false_eq_true]
        cases hcom : json.comments with
        | none => simp
        | some page =>
          by_cases hemp : page.isEmpty
          · simp [hemp]
          · simp only [hemp, if_false, Bool.false_eq_true]
            by_cases hguard : json.has_more = 1 ∧ json.cursor ≤ json.cursor - 50
            · simp [hguard]
            · simp only [hguard, if_false]
              by_cases hmore : json.has_more = 1
              · simp [hmore, ih]
              · simp [hmore]

theorem getAllReplies_replies (repEp : ReplyEndpoint) (commentId p : String)
    (fuel : Nat) :
    (getAllReplies repEp commentId p fuel).replies
      = (consumedReplyPages (repEp commentId) fuel 0 0).flatten.map
          (fun r => parseComment r [] (some p)) := by
  simp [getAllReplies, getAllRepliesAux_replies]

/-! ### The per-page record loop is the dedup filter -/

theorem processPage_eq (repEp : ReplyEndpoint) (replyFuel : Nat) :
    ∀ (page : List TopCommentData) (seen : List String) (acc : List Comment),
    processPage repEp replyFuel seen acc page
      = (seenAfter seen page,
         acc ++ (dedupFilter seen page).map (buildTopComment repEp replyFuel)) := by
  intro page
  induction page with
  | nil => intro seen acc; simp [processPage, seenAfter, dedupFilter]
  | cons d rest ih =>
    intro seen acc
    by_cases hd : d.base.cid ∈ seen
    · simp [processPage, seenAfter, dedupFilter, hd, ih]
    · simp [processPage, seenAfter, dedupFilter, hd, ih]

theorem seenAfter_append (xs ys : List TopCommentData) :
    ∀ seen, seenAfter seen (xs ++ ys) = seenAfter (seenAfter seen xs) ys := by
  induction xs with
  | nil => intro seen; simp [seenAfter]
  | cons d rest ih =>
    intro seen
    by_cases hd : d.base.cid ∈ seen
    · simp [seenAfter, hd, ih]
    · simp [seenAfter, hd, ih]

theorem dedupFilter_append (xs ys : List TopCommentData) :
    ∀ seen, dedupFilter seen (xs ++ ys)
      = dedupFilter seen xs ++ dedupFilter (seenAfter seen xs) ys := by
  induction xs with
  | nil => intro seen; simp [dedupFilter, seenAfter]
  | cons d rest ih =>
    intro seen
    by_cases hd : d.base.cid ∈ seen
    · simp [dedupFilter, seenAfter, hd, ih]
    · simp [dedupFilter, seenAfter, hd, ih]

/-! ### The walk's comment list is the deduped consumed stream -/

theorem getAllCommentsAux_comments (topEp : TopEndpoint) (repEp : ReplyEndpoint)
    (replyFuel : Nat) :
    ∀ (fuel callIdx : Nat) (cursor : Int) (seen : List String)
      (acc : List Comment) (caption videoUrl : String),
    (getAllCommentsAux topEp repEp replyFuel fuel callIdx cursor seen acc caption videoUrl).comments
      = acc ++ (dedupFilter seen (consumedTopPages topEp fuel callIdx cursor).flatten).map
          (buildTopComment repEp replyFuel) := by
  intro fuel
  induction fuel with
  | zero => intro i c seen acc cap vu; simp [getAllCommentsAux, consumedTopPages, dedupFilter]
  | succ n ih =>
    intro i c seen acc cap vu
    simp only [getAllCommentsAux, consumedTopPages]
    cases hep : topEp i c with
    | none => simp [dedupFilter]
    | some json =>
      by_cases hsc : statusBad json.status_code
      · simp [hsc, dedupFilter]
      · simp only [hsc, if_false, Bool.false_eq_true]
        cases hcom : json.comments with
        | none => simp [dedupFilter]
        | some page =>
          by_cases hemp : page.isEmpty
          · simp [hemp, dedupFilter]
          · simp only [hemp, if_false, Bool.false_eq_true]
            by_cases hguard : json.has_more = 1 ∧ json.cursor ≤ c
            · simp [hguard, processPage_eq]
            · simp only [hguard, if_false]
              by_cases hmore : json.has_more = 1
              · simp [hmore, processPage_eq, ih, dedupFilter_append]
              · simp [hmore, processPage_eq]

theorem getAllComments_comments (topEp : TopEndpoint) (repEp : ReplyEndpoint)
    (replyFuel fuel : Nat) :
    (getAllComments topEp repEp replyFuel fuel).result.comments
      = (dedupFilter [] (consumedTopPages topEp fuel 0 0).flatten).map
          (buildTopComment repEp replyFuel) := by
  simp [getAllComments, getAllCommentsAux_comments]

/-! ### Properties of the dedup filter -/

theorem dedupFilter_subset : ∀ (l : List TopCommentData) (seen : List String)
    (d : TopCommentData), d ∈ dedupFilter seen l → d ∈ l := by
  intro l
  induction l with
  | nil => intro seen d h; simp [dedupFilter] at h
  | cons x rest ih =>
    intro seen d h
    by_cases hx : x.base.cid ∈ seen
    · simp only [dedupFilter, hx, if_true] at h
      exact List.mem_cons_of_mem _ (ih _ _ h)
    · simp only [dedupFilter, hx, if_false] at h
      rcases List.mem_cons.mp h with rfl | h
      · exact List.mem_cons_self _ _
      · exact List.mem_cons_of_mem _ (ih _ _ h)

theorem dedupFilter_cids_nodup : ∀ (l : List TopCommentData) (seen : List String),
    ((dedupFilter seen l).map (fun d => d.base.cid)).Nodup
      ∧ ∀ c ∈ (dedupFilter seen l).map (fun d => d.base.cid), c ∉ seen := by
  intro l
  induction l with
  | nil => intro seen; simp [dedupFilter]
  | cons x rest ih =>
    intro seen
    by_cases hx : x.base.cid ∈ seen
    · simpa [dedupFilter, hx] using ih seen
    · have ih' := ih (x.base.cid :: seen)
      refine ⟨?_, ?_⟩
      · simp only [dedupFilter, hx, if_false, List.map_cons, List.nodup_cons]
        refine ⟨fun hmem => ?_, ih'.1⟩
        exact (ih'.2 _ hmem) (List.mem_cons_self _ _)
      · intro c hc
        simp only [dedupFilter, hx, if_false, List.map_cons, List.mem_cons] at hc
        rcases hc with rfl | hc
        · exact hx
        · exact fun hcs => (ih'.2 _ hc) (List.mem_cons_of_mem _ hcs)

theorem mem_dedupFilter_cids : ∀ (l : List TopCommentData) (seen : List String)
    (c : String), c ∈ l.map (fun d => d.base.cid) → c ∉ seen →
    c ∈ (dedupFilter seen l).map (fun d => d.base.cid) := by
  intro l
  induction l with
  | nil => intro seen c h _; simp at h
  | cons x rest ih =>
    intro seen c h hcs
    simp only [List.map_cons, List.mem_cons] at h
    by_cases hx : x.base.cid ∈ seen
    · simp only [dedupFilter, hx, if_true]
      rcases h with rfl | h
      · exact absurd hx hcs
      · exact ih _ _ h hcs
    · simp only [dedupFilter, hx, if_false, List.map_cons, List.mem_cons]
      rcases h with rfl | h
      · exact Or.inl rfl
      · by_cases hcx : c = x.base.cid
        · exact Or.inl hcx
        · refine Or.inr (ih _ _ h ?_)
          simp only [List.mem_cons]
          exact fun hc => hc.elim hcx hcs

/-- Every comment assembled by a walk comes from a consumed record, built by
`buildTopComment`. -/
theorem mem_walk_comments (topEp : TopEndpoint) (repEp : ReplyEndpoint)
    (replyFuel fuel : Nat) (c : Comment)
    (hc : c ∈ (getAllComments topEp repEp replyFuel fuel).result.comments) :
    ∃ d ∈ (consumedTopPages topEp fuel 0 0).flatten,
      c = buildTopComment repEp replyFuel d := by
  rw [getAllComments_comments] at hc
  rcases List.mem_map.mp hc with ⟨d, hd, rfl⟩
  exact ⟨d, dedupFilter_subset _ _ _ hd, rfl⟩

/-! ### Unfolding the retry executor -/

theorem fetchWithRetry_hit {T : Type} {oracle : Nat → Option T} {k : Nat} {v : T}
    (h : oracle k = some v) : fetchWithRetry oracle k = (some v, []) := by
  rw [fetchWithRetry, h]

theorem fetchWithRetry_step {T : Type} {oracle : Nat → Option T} {k : Nat}
    (h : oracle k = none) (hk : k < RETRY_CONFIG.maxRetries) :
    fetchWithRetry oracle k
      = ((fetchWithRetry oracle (k + 1)).1,
         backoffDelay k :: (fetchWithRetry oracle (k + 1)).2) := by
  rw [fetchWithRetry, h]
  simp [hk]

theorem fetchWithRetry_stop {T : Type} {oracle : Nat → Option T} {k : Nat}
    (h : oracle k = none) (hk : ¬ k < RETRY_CONFIG.maxRetries) :
    fetchWithRetry oracle k = (none, []) := by
  rw [fetchWithRetry, h]
  simp [hk]

/-- The delay list of a run starting at attempt 0 is one of four prefixes. -/
theorem fetchWithRetry_delay_cases {T : Type} (oracle : Nat → Option T) :
    (fetchWithRetry oracle 0).2 = [] ∨ (fetchWithRetry oracle 0).2 = [1000] ∨
    (fetchWithRetry oracle 0).2 = [1000, 2000] ∨
    (fetchWithRetry oracle 0).2 = [1000, 2000, 4000] := by
  rcases h0 : oracle 0 with _ | v0
  · rcases h1 : oracle 1 with _ | v1
    · rcases h2 : oracle 2 with _ | v2
      · rcases h3 : oracle 3 with _ | v3
        · refine Or.inr (Or.inr (Or.inr ?_))
          rw [fetchWithRetry_step h0 (by decide), fetchWithRetry_step h1 (by decide),
            fetchWithRetry_step h2 (by decide), fetchWithRetry_stop h3 (by decide)]
          norm_num [backoffDelay, RETRY_CONFIG.baseDelay, RETRY_CONFIG.maxDelay]
        · refine Or.inr (Or.inr (Or.inr ?_))
          rw [fetchWithRetry_step h0 (by decide), fetchWithRetry_step h1 (by decide),
            fetchWithRetry_step h2 (by decide), fetchWithRetry_hit h3]
          norm_num [backoffDelay, RETRY_CONFIG.baseDelay, RETRY_CONFIG.maxDelay]
      · refine Or.inr (Or.inr (Or.inl ?_))
        rw [fetchWithRetry_step h0 (by decide), fetchWithRetry_step h1 (by decide),
          fetchWithRetry_hit h2]
        norm_num [backoffDelay, RETRY_CONFIG.baseDelay, RETRY_CONFIG.maxDelay]
    · refine Or.inr (Or.inl ?_)
      rw [fetchWithRetry_step h0 (by decide), fetchWithRetry_hit h1]
      norm_num [backoffDelay, RETRY_CONFIG.baseDelay, RETRY_CONFIG.maxDelay]
  · exact Or.inl (by rw [fetchWithRetry_hit h0])

/-- When every attempt throws, the run returns `null` after sleeping
1000 ms, 2000 ms and 4000 ms. -/
theorem fetchWithRetry_all_none {T : Type} {oracle : Nat → Option T}
    (h : ∀ i, oracle i = none) :
    fetchWithRetry oracle 0 = (none, [1000, 2000, 4000]) := by
  rw [fetchWithRetry_step (h 0) (by decide), fetchWithRetry_step (h 1) (by decide),
    fetchWithRetry_step (h 2) (by decide), fetchWithRetry_stop (h 3) (by decide)]
  norm_num [backoffDelay, RETRY_CONFIG.baseDelay, RETRY_CONFIG.maxDelay]

/-! ### Character-level facts about the timestamp string -/

theorem dchar_ne_dot (n : Nat) : dchar n ≠ '.' := by
  have h : ∀ r, r < 10 → Char.ofNat (48 + r) ≠ '.' := by decide
  exact h (n % 10) (Nat.mod_lt n (by norm_num))

theorem dchar_ne_Z (n : Nat) : dchar n ≠ 'Z' := by
  have h : ∀ r, r < 10 → Char.ofNat (48 + r) ≠ 'Z' := by decide
  exact h (n % 10) (Nat.mod_lt n (by norm_num))

theorem dot_not_mem_isoChars (y mo d h mi s : Nat) :
    '.' ∉ isoChars y mo d h mi s := by
  intro hmem
  simp only [isoChars, List.mem_cons, List.not_mem_nil, or_false] at hmem
  rcases hmem with h|h|h|h|h|h|h|h|h|h|h|h|h|h|h|h|h|h|h <;>
    first
      | exact dchar_ne_dot _ h.symm
      | exact absurd h (by decide)

theorem Z_not_mem_isoChars (y mo d h mi s : Nat) :
    'Z' ∉ isoChars y mo d h mi s := by
  intro hmem
  simp only [isoChars, List.mem_cons, List.not_mem_nil, or_false] at hmem
  rcases hmem with h|h|h|h|h|h|h|h|h|h|h|h|h|h|h|h|h|h|h <;>
    first
      | exact dchar_ne_Z _ h.symm
      | exact absurd h (by decide)

theorem toList_epochToISO (sec : Nat) :
    (epochToISO sec).toList
      = isoChars (yearFromDay (sec / 86400)).1
          (monthFromDayAux (monthLengths (yearFromDay (sec / 86400)).1) 1
            (yearFromDay (sec / 86400)).2).1
          ((monthFromDayAux (monthLengths (yearFromDay (sec / 86400)).1) 1
            (yearFromDay (sec / 86400)).2).2 + 1)
          (sec % 86400 / 3600) (sec % 86400 / 60 % 60) (sec % 86400 % 60) := rfl

/-- The reply loop on the ping-pong endpoint never exits and issues a
request on every iteration, for any fuel budget. -/
theorem stuck_loop_never_finishes :
    ∀ (fuel callIdx : Nat) (c : Int) (acc : List Comment),
    (getAllRepliesAux (stuckReplyEndpoint "c1") "c1" fuel callIdx c acc).finished = false ∧
    (getAllRepliesAux (stuckReplyEndpoint "c1") "c1" fuel callIdx c acc).calls = fuel := by
  intro fuel
  induction fuel with
  | zero => intro i c acc; simp [getAllRepliesAux]
  | succ n ih =>
    intro i c acc
    by_cases hc : c = 0
    · simpa [getAllRepliesAux, stuckReplyEndpoint, hc, statusBad] using
        ih (i + 1) 50 _
    · simpa [getAllRepliesAux, stuckReplyEndpoint, hc, statusBad] using
        ih (i + 1) 0 _

/-! ### Claim theorems -/

/-- C1 (code bug): against `stuckReplyEndpoint` — whose response to the
request at cursor 50 reports `has_more = 1` with a returned cursor that
does not advance (`new_cursor = 0 <= 50 - size`), the very situation the
claimed guard is for — `getAllReplies` never stops paginating: for every
fuel budget the loop is still running and has issued one request per
iteration.  The source's guard `json.cursor <= cursor - size` is evaluated
after `cursor = json.cursor`, so it compares a value against itself minus
50 and can never fire, contradicting the claim (and the code's own
"break to avoid infinite loop" comment). -/
theorem repliesLoop_ignores_nonadvancing_cursor :
    (∃ r, stuckReplyEndpoint "c1" 1 50 = some r ∧ r.has_more = 1 ∧ r.cursor ≤ 50 - 50) ∧
    ∀ fuel : Nat,
      (getAllReplies stuckReplyEndpoint "c1" "c1" fuel).finished = false ∧
      (getAllReplies stuckReplyEndpoint "c1" "c1" fuel).calls = fuel := by
  refine ⟨⟨⟨some [sampleReply "r2" none], 1, 0, none⟩, by decide, rfl, by decide⟩, ?_⟩
  intro fuel
  exact stuck_loop_never_finishes fuel 0 0 []

/-- C2: against any mock comments-list endpoint that always reports
`has_more: 1`, echoes the request cursor back, and returns a non-empty
comment list with a benign status code, `getAllComments` issues exactly
one request and exits through its non-advancing-cursor guard, for every
fuel budget of at least one iteration — it never loops indefinitely. -/
theorem walker_stops_on_echoed_cursor (topEp : TopEndpoint) (repEp : ReplyEndpoint)
    (replyFuel fuel : Nat)
    (h : ∀ i c, ∃ page sc, topEp i c = some ⟨some page, 1, c, sc⟩ ∧ page ≠ [] ∧
      statusBad sc = false) :
    (getAllComments topEp repEp replyFuel (fuel + 1)).calls = 1 ∧
    (getAllComments topEp repEp replyFuel (fuel + 1)).finished = true := by
  obtain ⟨page, sc, heq, hne, hsc⟩ := h 0 0
  simp [getAllComments, getAllCommentsAux, heq, hsc, List.isEmpty_iff, hne]

/-- Witness for C2: the concrete echoing endpoint stops after one call. -/
theorem walker_stops_on_echoed_cursor_witness :
    (getAllComments echoTopEndpoint emptyReplyEndpoint 0 1).calls = 1 ∧
    (getAllComments echoTopEndpoint emptyReplyEndpoint 0 1).finished = true :=
  walker_stops_on_echoed_cursor echoTopEndpoint emptyReplyEndpoint 0 0
    (fun _ c => ⟨[sampleTop "c1" none 0], none, rfl, by simp, rfl⟩)

/-- C3 counterexample: a record arriving in the top-level stream with a
non-zero reply-of marker (`reply_id = "p0"`) IS added to the assembled
`Comments.comments` list (the list has length 1 and contains it), refuting
the claim that the walker does not add it as a new top-level comment; the
record is only tagged via `parent_comment_id`. -/
theorem replyMarked_record_kept_in_top_list :
    (getAllComments inlineReplyTopEndpoint emptyReplyEndpoint 0 1).result.comments.map
        (fun c => (c.comment_id, c.parent_comment_id)) = [("c1", some "p0")] ∧
    (getAllComments inlineReplyTopEndpoint emptyReplyEndpoint 0 1).result.comments.length
      = 1 := by
  exact ⟨by decide, by decide⟩

/-- C3 amended: a record arriving in the top-level stream with a non-zero
reply-of marker is tagged with `parent_comment_id` equal to the marker's
target (reclassifying it as a reply for downstream consumers), but it is
still appended to the assembled `Comments.comments` list: every assembled
comment comes from some consumed record and carries exactly that record's
reply marker as its `parent_comment_id`. -/
theorem replyMarked_record_tagged_and_appended (topEp : TopEndpoint) (repEp : ReplyEndpoint)
    (replyFuel fuel : Nat) (c : Comment)
    (hc : c ∈ (getAllComments topEp repEp replyFuel fuel).result.comments) :
    ∃ d ∈ (consumedTopPages topEp fuel 0 0).flatten,
      c.comment_id = d.base.cid ∧ c.parent_comment_id = replyMarker d.base := by
  obtain ⟨d, hd, rfl⟩ := mem_walk_comments topEp repEp replyFuel fuel c hc
  exact ⟨d, hd, rfl, rfl⟩

/-- Witness for C3 amended, at the single-record marked endpoint. -/
theorem replyMarked_record_tagged_and_appended_witness :
    ∃ d ∈ (consumedTopPages inlineReplyTopEndpoint 1 0 0).flatten,
      (buildTopComment emptyReplyEndpoint 0 inlineReplyRecord).comment_id = d.base.cid ∧
      (buildTopComment emptyReplyEndpoint 0 inlineReplyRecord).parent_comment_id
        = replyMarker d.base :=
  replyMarked_record_tagged_and_appended inlineReplyTopEndpoint emptyReplyEndpoint 0 1 _
    ((show (getAllComments inlineReplyTopEndpoint emptyReplyEndpoint 0 1).result.comments
        = [buildTopComment emptyReplyEndpoint 0 inlineReplyRecord] from rfl) ▸
      List.mem_singleton_self _)

/-- C4: for any page sequence, a `comment_id` occurring among the records
of the consumed pages — in particular one repeated across two pages or
twice within one page — appears exactly once among the comment ids of the
assembled result (the `seenCommentIds` dedup guard). -/
theorem dedup_exactly_once (topEp : TopEndpoint) (repEp : ReplyEndpoint)
    (replyFuel fuel : Nat) (cid : String)
    (h : cid ∈ (consumedTopPages topEp fuel 0 0).flatten.map (fun d => d.base.cid)) :
    ((getAllComments topEp repEp replyFuel fuel).result.comments.map
      Comment.comment_id).count cid = 1 := by
  have hids : (getAllComments topEp repEp replyFuel fuel).result.comments.map
      Comment.comment_id
      = (dedupFilter [] (consumedTopPages topEp fuel 0 0).flatten).map
          (fun d => d.base.cid) := by
    rw [getAllComments_comments, List.map_map]
    rfl
  rw [hids]
  exact List.count_eq_one_of_mem (dedupFilter_cids_nodup _ _).1
    (mem_dedupFilter_cids _ _ _ h (by simp))

/-- Witness for C4: id `"a"` is returned on both pages of
`dupTopEndpoint` yet assembled exactly once. -/
theorem dedup_exactly_once_witness :
    "a" ∈ (consumedTopPages dupTopEndpoint 2 0 0).flatten.map (fun d => d.base.cid) ∧
    ((getAllComments dupTopEndpoint emptyReplyEndpoint 0 2).result.comments.map
      Comment.comment_id).count "a" = 1 :=
  ⟨by decide, dedup_exactly_once dupTopEndpoint emptyReplyEndpoint 0 2 "a" (by decide)⟩

/-- C5 counterexample: when the replies endpoint returns two reply records
for a comment whose reported `total_reply` is 1, the assembled top-level
comment has `replies.length = 2 > 1 = total_reply`: the code imposes no
cap tying the resolved replies to the reported count, refuting
`replies.length <= total_reply` as an unconditional invariant. -/
theorem replies_can_exceed_total_reply :
    (getAllComments singleTopEndpoint overReplyEndpoint 1 1).result.comments.map
        (fun c => ((c.replies.length : Int), c.total_reply)) = [(2, 1)] ∧
    ¬ ∀ c ∈ (getAllComments singleTopEndpoint overReplyEndpoint 1 1).result.comments,
        (c.replies.length : Int) ≤ c.total_reply := by
  refine ⟨by decide, fun h => ?_⟩
  have hmem : buildTopComment overReplyEndpoint 1 (sampleTop "c1" none 1)
      ∈ (getAllComments singleTopEndpoint overReplyEndpoint 1 1).result.comments :=
    (show (getAllComments singleTopEndpoint overReplyEndpoint 1 1).result.comments
        = [buildTopComment overReplyEndpoint 1 (sampleTop "c1" none 1)] from rfl) ▸
      List.mem_singleton_self _
  exact absurd (h _ hmem) (by decide)

/-- C5 amended: for every top-level comment in the result,
`replies.length <= total_reply` holds provided the replies endpoint
returned at most `total_reply` reply records across the pages consumed for
that comment (the resolved replies are exactly the consumed records, so an
endpoint over-returning breaks the bound, and any stop condition cutting
resolution short only lowers `replies.length`). -/
theorem replies_bounded_when_endpoint_honest (topEp : TopEndpoint) (repEp : ReplyEndpoint)
    (replyFuel fuel : Nat) (c : Comment)
    (hc : c ∈ (getAllComments topEp repEp replyFuel fuel).result.comments)
    (hhonest : ((consumedReplyPages (repEp c.comment_id) replyFuel 0 0).flatten.length : Int)
      ≤ c.total_reply) :
    (c.replies.length : Int) ≤ c.total_reply := by
  obtain ⟨d, hd, rfl⟩ := mem_walk_comments topEp repEp replyFuel fuel c hc
  by_cases ht : 0 < d.base.reply_comment_total
  · have hrep : (buildTopComment repEp replyFuel d).replies
        = (getAllReplies repEp d.base.cid d.base.cid replyFuel).replies := by
      simp [buildTopComment, resolvedReplies, ht, parseComment_replies]
    rw [hrep, getAllReplies_replies, List.length_map]
    exact hhonest
  · have hrep : (buildTopComment repEp replyFuel d).replies = [] := by
      simp [buildTopComment, resolvedReplies, ht, parseComment_replies]
    rw [hrep]
    exact le_trans (Int.natCast_nonneg _) hhonest

/-- Witness for C5 amended: one reported reply, one returned record. -/
theorem replies_bounded_when_endpoint_honest_witness :
    (((consumedReplyPages (plainReplyEndpoint
        (buildTopComment plainReplyEndpoint 1 (sampleTop "c1" none 1)).comment_id)
        1 0 0).flatten.length : Int)
      ≤ (buildTopComment plainReplyEndpoint 1 (sampleTop "c1" none 1)).total_reply) ∧
    (((buildTopComment plainReplyEndpoint 1 (sampleTop "c1" none 1)).replies.length : Int)
      ≤ (buildTopComment plainReplyEndpoint 1 (sampleTop "c1" none 1)).total_reply) :=
  ⟨by decide,
    replies_bounded_when_endpoint_honest singleTopEndpoint plainReplyEndpoint 1 1 _
      ((show (getAllComments singleTopEndpoint plainReplyEndpoint 1 1).result.comments
          = [buildTopComment plainReplyEndpoint 1 (sampleTop "c1" none 1)] from rfl) ▸
        List.mem_singleton_self _)
      (by decide)⟩

/-- C6: `fetchWithRetry` retries at most 3 times after the initial attempt
(at most three backoff sleeps), the delays slept are always a prefix of
`[1000, 2000, 4000]` ms — `min(1000 * 2^attempt, 4000)` for retry attempts
0, 1, 2 — and when every attempt throws, it returns `null` (not an
exception) after sleeping exactly 1000, 2000 and 4000 ms. -/
theorem fetch_retry_backoff {T : Type} (oracle : Nat → Option T) :
    backoffDelay 0 = 1000 ∧ backoffDelay 1 = 2000 ∧ backoffDelay 2 = 4000 ∧
    (fetchWithRetry oracle 0).2.length ≤ 3 ∧
    (fetchWithRetry oracle 0).2
      = [1000, 2000, 4000].take (fetchWithRetry oracle 0).2.length ∧
    ((∀ i, oracle i = none) → fetchWithRetry oracle 0 = (none, [1000, 2000, 4000])) := by
  refine ⟨by norm_num [backoffDelay, RETRY_CONFIG.baseDelay, RETRY_CONFIG.maxDelay],
    by norm_num [backoffDelay, RETRY_CONFIG.baseDelay, RETRY_CONFIG.maxDelay],
    by norm_num [backoffDelay, RETRY_CONFIG.baseDelay, RETRY_CONFIG.maxDelay],
    ?_, ?_, fetchWithRetry_all_none⟩
  · rcases fetchWithRetry_delay_cases oracle with h | h | h | h <;> simp [h]
  · rcases fetchWithRetry_delay_cases oracle with h | h | h | h <;> rw [h] <;> rfl

/-- Witness for C6: the always-failing oracle exhausts all three retries. -/
theorem fetch_retry_backoff_witness :
    (∀ i : Nat, (fun _ : Nat => (none : Option Nat)) i = none) ∧
    fetchWithRetry (fun _ : Nat => (none : Option Nat)) 0 = (none, [1000, 2000, 4000]) :=
  ⟨fun _ => rfl, (fetch_retry_backoff (fun _ => none)).2.2.2.2.2 (fun _ => rfl)⟩

/-- C7 counterexample: when the original top-level comment's id is the
empty string, the resolved reply's `parent_comment_id` is `some "999"`
(the reply record's own marker) rather than the top-level comment's id:
an empty `parentCommentId` is falsy in `parentCommentId || ...`, so the
tag falls back to the record's `reply_id`. -/
theorem reply_parent_not_top_id_when_empty :
    (getAllComments emptyCidTopEndpoint markedReplyEndpoint 1 1).result.comments.map
        (fun c => (c.comment_id, c.replies.map Comment.parent_comment_id))
      = [("", [some "999"])] ∧
    ¬ ∀ c ∈ (getAllComments emptyCidTopEndpoint markedReplyEndpoint 1 1).result.comments,
        ∀ r ∈ c.replies, r.parent_comment_id = some c.comment_id := by
  refine ⟨by decide, fun h => ?_⟩
  have hmem : buildTopComment markedReplyEndpoint 1 (sampleTop "" none 1)
      ∈ (getAllComments emptyCidTopEndpoint markedReplyEndpoint 1 1).result.comments :=
    (show (getAllComments emptyCidTopEndpoint markedReplyEndpoint 1 1).result.comments
        = [buildTopComment markedReplyEndpoint 1 (sampleTop "" none 1)] from rfl) ▸
      List.mem_singleton_self _
  have hrmem : parseComment (sampleReply "r9" (some "999")) [] (some "")
      ∈ (buildTopComment markedReplyEndpoint 1 (sampleTop "" none 1)).replies :=
    (show (buildTopComment markedReplyEndpoint 1 (sampleTop "" none 1)).replies
        = [parseComment (sampleReply "r9" (some "999")) [] (some "")] from rfl) ▸
      List.mem_singleton_self _
  exact absurd (h _ hmem _ hrmem) (by decide)

/-- C7 amended: every reply of every assembled top-level comment carries
`parent_comment_id` equal to that comment's id (never an intermediate
ancestor), for all reply records returned by the replies endpoint,
provided the top-level comment's id is non-empty. -/
theorem reply_parent_eq_top_id (topEp : TopEndpoint) (repEp : ReplyEndpoint)
    (replyFuel fuel : Nat) (c : Comment)
    (hc : c ∈ (getAllComments topEp repEp replyFuel fuel).result.comments)
    (hne : c.comment_id ≠ "") (r : Comment) (hr : r ∈ c.replies) :
    r.parent_comment_id = some c.comment_id := by
  obtain ⟨d, hd, rfl⟩ := mem_walk_comments topEp repEp replyFuel fuel c hc
  rw [show (buildTopComment repEp replyFuel d).replies
    = resolvedReplies repEp replyFuel d.base from rfl] at hr
  by_cases ht : 0 < d.base.reply_comment_total
  · rw [show resolvedReplies repEp replyFuel d.base
      = (getAllReplies repEp d.base.cid d.base.cid replyFuel).replies from
        by simp [resolvedReplies, ht]] at hr
    rw [getAllReplies_replies] at hr
    obtain ⟨x, _, rfl⟩ := List.mem_map.mp hr
    exact parseComment_parent_some _ _ hne
  · rw [show resolvedReplies repEp replyFuel d.base = [] from
      by simp [resolvedReplies, ht]] at hr
    exact absurd hr (List.not_mem_nil _)

/-- Witness for C7 amended: a resolved reply of comment `"c1"`. -/
theorem reply_parent_eq_top_id_witness :
    (buildTopComment plainReplyEndpoint 1 (sampleTop "c1" none 1)).comment_id ≠ "" ∧
    (parseComment (sampleReply "r1" none) [] (some "c1")).parent_comment_id
      = some (buildTopComment plainReplyEndpoint 1 (sampleTop "c1" none 1)).comment_id :=
  ⟨by decide,
    reply_parent_eq_top_id singleTopEndpoint plainReplyEndpoint 1 1 _
      ((show (getAllComments singleTopEndpoint plainReplyEndpoint 1 1).result.comments
          = [buildTopComment plainReplyEndpoint 1 (sampleTop "c1" none 1)] from rfl) ▸
        List.mem_singleton_self _)
      (by decide) _
      ((show (buildTopComment plainReplyEndpoint 1 (sampleTop "c1" none 1)).replies
          = [parseComment (sampleReply "r1" none) [] (some "c1")] from rfl) ▸
        List.mem_singleton_self _)⟩

/-- C8: when the login-wall marker is detected with no saved session,
`InstagramComment.scrape` returns a `Comments` with empty `comments`,
`has_more = 0`, `needs_auth = true` and a non-empty `auth_message`; and
when zero comments are parsed without a session — login wall or not — it
returns the same needs-auth shaped result. -/
theorem instagram_auth_fallback (loginWall hasSession : Bool)
    (parsed : List Comment) (caption url : String) :
    (loginWall = true → hasSession = false →
      (instagramScrape loginWall hasSession parsed caption url).comments = [] ∧
      (instagramScrape loginWall hasSession parsed caption url).has_more = 0 ∧
      (instagramScrape loginWall hasSession parsed caption url).needs_auth = true ∧
      (instagramScrape loginWall hasSession parsed caption url).auth_message ≠ "") ∧
    (parsed = [] → hasSession = false →
      (instagramScrape loginWall hasSession parsed caption url).comments = [] ∧
      (instagramScrape loginWall hasSession parsed caption url).has_more = 0 ∧
      (instagramScrape loginWall hasSession parsed caption url).needs_auth = true ∧
      (instagramScrape loginWall hasSession parsed caption url).auth_message ≠ "") := by
  constructor
  · rintro rfl rfl
    refine ⟨?_, ?_, ?_, ?_⟩ <;> simp [instagramScrape]
  · rintro rfl rfl
    cases loginWall <;> refine ⟨?_, ?_, ?_, ?_⟩ <;> simp [instagramScrape]

/-- Witness for C8: a login wall with no session. -/
theorem instagram_auth_fallback_witness :
    (instagramScrape true false [] "" "https://instagram.com/p/x").comments = [] ∧
    (instagramScrape true false [] "" "https://instagram.com/p/x").has_more = 0 ∧
    (instagramScrape true false [] "" "https://instagram.com/p/x").needs_auth = true ∧
    (instagramScrape true false [] "" "https://instagram.com/p/x").auth_message ≠ "" :=
  (instagram_auth_fallback true false [] "" "https://instagram.com/p/x").1 rfl rfl

/-- C9: for every epoch-seconds input below the four-digit-year bound of
the model, the `create_time` stored by the `Comment` constructor is the
UTC conversion `epochToISO` truncated to whole seconds; at 1700000000 it
equals `"2023-11-14T22:13:20"`, and it is always 19 characters with no
`'.'` (no milliseconds) and no `'Z'` (no timezone suffix). -/
theorem create_time_normalization (id u nick txt av : String) (tr : Int)
    (rep : List Comment) (pid : Option String) (orph : Bool)
    (sec : Nat) (_hsec : sec < 253402300800) :
    (Comment.make id u nick txt sec av tr rep pid orph).create_time = epochToISO sec ∧
    epochToISO 1700000000 = "2023-11-14T22:13:20" ∧
    (epochToISO sec).length = 19 ∧
    '.' ∉ (epochToISO sec).toList ∧
    'Z' ∉ (epochToISO sec).toList := by
  refine ⟨rfl, by decide, rfl, ?_, ?_⟩
  · rw [toList_epochToISO]
    exact dot_not_mem_isoChars _ _ _ _ _ _
  · rw [toList_epochToISO]
    exact Z_not_mem_isoChars _ _ _ _ _ _

/-- Witness for C9, at epoch 1700000000. -/
theorem create_time_normalization_witness :
    (1700000000 : Nat) < 253402300800 ∧
    ((Comment.make "id" "user" "nick" "hello" 1700000000 "" 0 [] none false).create_time
        = epochToISO 1700000000 ∧
      epochToISO 1700000000 = "2023-11-14T22:13:20" ∧
      (epochToISO 1700000000).length = 19 ∧
      '.' ∉ (epochToISO 1700000000).toList ∧
      'Z' ∉ (epochToISO 1700000000).toList) :=
  ⟨by norm_num,
    create_time_normalization "id" "user" "nick" "hello" "" 0 [] none false
      1700000000 (by norm_num)⟩

/-- C10: `getAllReplies` keeps no seen-id set — the comment ids of the
resolved replies are exactly the cids of the consumed reply records, in
order and with multiplicity — so a reply id occurring at least twice among
the consumed records (two pages, or twice within one page) occurs at least
twice in the parent's replies list. -/
theorem reply_duplicates_preserved (repEp : ReplyEndpoint) (commentId p : String)
    (fuel : Nat) (cid : String)
    (h : 2 ≤ ((consumedReplyPages (repEp commentId) fuel 0 0).flatten.map
      RawCommentData.cid).count cid) :
    2 ≤ ((getAllReplies repEp commentId p fuel).replies.map
      Comment.comment_id).count cid := by
  have hids : (getAllReplies repEp commentId p fuel).replies.map Comment.comment_id
      = (consumedReplyPages (repEp commentId) fuel 0 0).flatten.map RawCommentData.cid := by
    rw [getAllReplies_replies, List.map_map]
    rfl
  rw [hids]
  exact h

/-- Witness for C10: id `"r1"` returned on two pages appears twice. -/
theorem reply_duplicates_preserved_witness :
    2 ≤ ((consumedReplyPages (dupReplyEndpoint "c1") 2 0 0).flatten.map
      RawCommentData.cid).count "r1" ∧
    2 ≤ ((getAllReplies dupReplyEndpoint "c1" "c1" 2).replies.map
      Comment.comment_id).count "r1" :=
  ⟨by decide, reply_duplicates_preserved dupReplyEndpoint "c1" "c1" 2 "r1" (by decide)⟩

end Scraper
